import Mathlib

/-!
# Verification of the lib3to6 transpiler against its specification

Shallow embedding of the lib3to6 source files:
* `src/lib3to6/checkers_backports.py` — the unusable-import checker,
* `src/lib3to6/fixers_future.py` — the future-import fixers and the cleanup fixer,
* `src/lib3to6/packaging.py` — build-config evaluation and cached per-file transpilation,
* `src/lib3to6/__main__.py` — the command-line driver.

Python strings become Lean `String`, Python bytes become `List Nat`, Python sets
become `Finset String`, `None`-able values become `Option`, and raised
exceptions become `Except`.
-/

namespace Lib3to6

/-! ## Python string ordering

Python compares strings lexicographically by code point.  The checker in
`checkers_backports.py` compares version strings with the plain `>=` string
operator; we embed that ordering here. -/

/-- Lexicographic (code-point) strict order on character lists, as Python
compares `str` values. -/
def pyCharsLt : List Char → List Char → Bool
  | [], [] => false
  | [], _ :: _ => true
  | _ :: _, [] => false
  | a :: as, b :: bs =>
    if a < b then true
    else if a = b then pyCharsLt as bs
    else false

/-- Python `a < b` on strings. -/
def pyStrLt (a b : String) : Bool := pyCharsLt a.data b.data

/-- Python `a >= b` on strings (strings are totally ordered, so `>=` is the
negation of `<`). -/
def pyStrGe (a b : String) : Bool := !pyStrLt a b

/-! ## Versions as dot-separated integer pairs

The specification's data-model invariant reads version strings as two
dot-separated integers (major, then minor).  This interpretation is used to
state claims about the intended comparison and, where the code embedding a
rule's version bounds is not part of the visible sources, to model it from the
spec. -/

/-- Decimal digits to a natural number. -/
def digitsToNat (l : List Char) : Nat :=
  l.foldl (fun n c => n * 10 + (c.toNat - 48)) 0

/-- Read a dotted version string as a (major, minor) pair of integers. -/
def parseVersion (s : String) : Nat × Nat :=
  let l := s.data
  let maj := l.takeWhile (· ≠ '.')
  let rest := (l.dropWhile (· ≠ '.')).drop 1
  let minr := rest.takeWhile (· ≠ '.')
  (digitsToNat maj, digitsToNat minr)

/-- `a ≤ b` on versions read as (major, minor) integer pairs. -/
def intVerLe (a b : String) : Bool :=
  let pa := parseVersion a
  let pb := parseVersion b
  if pa.1 < pb.1 then true
  else if pa.1 = pb.1 then pb.2 ≥ pa.2
  else false

/-- `a ≥ b` on versions read as (major, minor) integer pairs. -/
def intVerGe (a b : String) : Bool := intVerLe b a

/-! ## Shared model: `common.BuildConfig`

Mirrors the fields constructed by `packaging.eval_build_config` plus the
`backports` whitelist read by the checker (`ctx.cfg.backports`). -/

/-- The build configuration record (`common.BuildConfig`). -/
structure BuildConfig where
  target_version : String
  cache_enabled : Bool
  default_mode : String
  fixers : String
  checkers : String
  install_requires : Option (Finset String)
  backports : Option (Finset String)
deriving DecidableEq

/-! ## Python statement trees

Just enough of the `ast` module's statement nodes for the checker and the
future-import fixers: import statements (with their line numbers and the
`alias.name`s they bind), and compound statements carrying nested bodies that
are not direct children of the module node. -/

/-- A Python statement node.  `import_ lineno names` is `ast.Import`;
`importFrom lineno module level names` is `ast.ImportFrom`; the compound
constructors hold statements that are *not* direct children of the module. -/
inductive PyStmt where
  | import_ (lineno : Int) (names : List String)
  | importFrom (lineno : Int) (module : Option String) (level : Nat) (names : List String)
  | if_ (body orelse : List PyStmt)
  | try_ (body : List PyStmt) (handlers : List (List PyStmt)) (orelse finalbody : List PyStmt)
  | funcDef (body : List PyStmt)
  | while_ (body : List PyStmt)
  | other

/-! ## The unusable-import checker (`checkers_backports.py`) -/

/-- `ModuleVersionInfo` from `checkers_backports.py`. -/
structure ModuleVersionInfo where
  available_since : String
  backport_module : Option String
  backport_package : Option String
deriving DecidableEq

/-- The static compatibility table `MAYBE_UNUSABLE_MODULES`, exactly as in the
source. -/
def MAYBE_UNUSABLE_MODULES : List (String × ModuleVersionInfo) :=
  [ ("asyncio", ⟨"3.4", none, none⟩)
  , ("zipapp", ⟨"3.5", none, none⟩)
  , ("csv", ⟨"3.0", some "backports.csv", some "backports.csv"⟩)
  , ("selectors", ⟨"3.4", some "selectors2", some "selectors2"⟩)
  , ("pathlib", ⟨"3.4", some "pathlib2", some "pathlib2"⟩)
  , ("importlib.resources", ⟨"3.7", some "importlib_resources", some "importlib_resources"⟩)
  , ("inspect", ⟨"3.6", some "inspect2", some "inspect2"⟩)
  , ("lzma", ⟨"3.3", some "lzma", some "backports.lzma"⟩)
  , ("ipaddress", ⟨"3.4", some "ipaddress", some "py2-ipaddress"⟩)
  , ("enum", ⟨"3.4", some "enum", some "enum34"⟩)
  , ("typing", ⟨"3.5", some "typing", some "typing"⟩)
  , ("secrets", ⟨"3.6", some "secrets", some "python2-secrets"⟩)
  , ("statistics", ⟨"3.4", some "statistics", some "statistics"⟩)
  , ("dataclasses", ⟨"3.7", some "dataclasses", some "dataclasses"⟩)
  , ("contextvars", ⟨"3.7", some "contextvars", some "contextvars"⟩)
  ]

/-- A structured check failure (`common.CheckError` as raised by the checker):
the offending module name, the message the source formats, and the line
number of the offending node. -/
structure CheckFailure where
  mname : String
  msg : String
  lineno : Int
deriving DecidableEq

/-- A logged warning (the `log.warning` call in the checker), kept structured:
file path, line, module name and target version that the source interpolates
into the message. -/
structure CheckWarning where
  filepath : String
  lineno : Int
  mname : String
  target_version : String
deriving DecidableEq

/-- The error message formatted by `NoUnusableImportsChecker.__call__`. -/
def mkErrMsg (mname : String) (vnfo : ModuleVersionInfo) : String :=
  let errmsg := "Prohibited import \x27" ++ mname ++ "\x27 (only available since python "
      ++ vnfo.available_since ++ ")."
  match vnfo.backport_package with
  | some bp => errmsg ++ " Use \x27https://pypi.org/project/" ++ bp ++ "\x27 instead."
  | none => errmsg ++ " No backported for this package is known."

/-- Outcome of checking one imported module name. -/
inductive NameOutcome where
  | pass
  | warn (w : CheckWarning)
  | err (e : CheckFailure)
deriving DecidableEq

/-- The body of the per-name loop of `NoUnusableImportsChecker.__call__`:
table lookup, string `>=` version test, whitelist test, same-name warning in
non-strict mode, otherwise a structured failure. -/
def checkModName (cfg : BuildConfig) (filepath : String) (lineno : Int)
    (mname : String) : NameOutcome :=
  match (MAYBE_UNUSABLE_MODULES.lookup mname) with
  | none => .pass
  | some vnfo =>
    if pyStrGe cfg.target_version vnfo.available_since then
      .pass
    else if mname ∈ cfg.backports.getD ∅ then
      .pass
    else if vnfo.backport_module = some mname && !cfg.backports.isSome then
      .warn ⟨filepath, lineno, mname, cfg.target_version⟩
    else
      .err ⟨mname, mkErrMsg mname vnfo, lineno⟩

/-- Check all module names of one import statement, in order, collecting
warnings and failing on the first error. -/
def checkNames (cfg : BuildConfig) (filepath : String) (lineno : Int) :
    List String → Except CheckFailure (List CheckWarning)
  | [] => .ok []
  | n :: rest =>
    match checkModName cfg filepath lineno n with
    | .pass => checkNames cfg filepath lineno rest
    | .warn w =>
      match checkNames cfg filepath lineno rest with
      | .ok ws => .ok (w :: ws)
      | .error e => .error e
    | .err e => .error e

/-- The module names an import statement binds, as the checker extracts them:
for `ast.Import` every `alias.name`; for `ast.ImportFrom` the `module`
attribute if present.  Other statements — including compound statements with
nested imports — yield nothing. -/
def stmtModNames : PyStmt → Option (Int × List String)
  | .import_ ln names => some (ln, names)
  | .importFrom ln m _ _ =>
    some (ln, match m with | some mn => [mn] | none => [])
  | _ => none

/-- `NoUnusableImportsChecker.__call__` over the direct children of the module
node (`ast.iter_child_nodes(tree)`). -/
def checkBody (cfg : BuildConfig) (filepath : String) :
    List PyStmt → Except CheckFailure (List CheckWarning)
  | [] => .ok []
  | s :: rest =>
    match stmtModNames s with
    | none => checkBody cfg filepath rest
    | some (ln, ns) =>
      match checkNames cfg filepath ln ns with
      | .error e => .error e
      | .ok ws =>
        match checkBody cfg filepath rest with
        | .error e => .error e
        | .ok ws' => .ok (ws ++ ws')

/-- The module names imported by the *direct children* of the module node —
the only names the checker ever inspects. -/
def topLevelModNames : List PyStmt → List String
  | [] => []
  | s :: rest =>
    (match stmtModNames s with
     | some (_, ns) => ns
     | none => []) ++ topLevelModNames rest

/-- Strip the nested bodies of compound statements, keeping the direct-child
statements that are imports intact.  Used to state that the checker reads only direct
children of the module node. -/
def stripNested : PyStmt → PyStmt
  | .import_ ln names => .import_ ln names
  | .importFrom ln m lvl names => .importFrom ln m lvl names
  | _ => .other

/-! ## The future-import fixers (`fixers_future.py`) -/

/-- `VersionInfo` on a fixer class: inclusive `apply_since`/`apply_until`
bounds. -/
structure VersionInfo where
  apply_since : String
  apply_until : String
deriving DecidableEq

/-- The nine subclasses of `FutureImportFixerBase`: each declares a
`future_name` and a `version_info`, exactly as in `fixers_future.py`. -/
def futureFixers : List (String × VersionInfo) :=
  [ ("annotations", ⟨"3.7", "3.99"⟩)
  , ("generator_stop", ⟨"3.5", "3.6"⟩)
  , ("unicode_literals", ⟨"2.6", "2.7"⟩)
  , ("print_function", ⟨"2.6", "2.7"⟩)
  , ("with_statement", ⟨"2.5", "2.5"⟩)
  , ("absolute_import", ⟨"2.5", "2.7"⟩)
  , ("division", ⟨"2.2", "2.7"⟩)
  , ("generators", ⟨"2.2", "2.2"⟩)
  , ("nested_scopes", ⟨"2.1", "2.1"⟩)
  ]

/-- Modelled from the spec: `FixerBase.is_compatible_with` lives in
`fixer_base.py`, which is not among the visible sources.  The data-model
invariant states that a rule is active for a target version iff
`apply_since ≤ target_version ≤ apply_until`, the version strings compared as
two dot-separated integers. -/
def is_compatible_with (vi : VersionInfo) (target_version : String) : Bool :=
  intVerLe vi.apply_since target_version && intVerLe target_version vi.apply_until

/-- The set `supported_futures` computed by
`RemoveUnsupportedFuturesFixer.__call__`: the `future_name` of every
`FutureImportFixerBase` subclass compatible with the target version. -/
def supportedFutures (target_version : String) : List String :=
  (futureFixers.filter (fun p => is_compatible_with p.2 target_version)).map (·.1)

/-- Modelled from the spec: the pipeline invokes each fixer only when it is
active for the target version, and every active future-import fixer
unconditionally registers its `future_name` as a required import
(`FutureImportFixerBase.__call__`).  The names registered by running the full
future-import fixer set are therefore those of the compatible fixers. -/
def registeredFutureImports (target_version : String) : List String :=
  (futureFixers.filter (fun p => is_compatible_with p.2 target_version)).map (·.1)

/-- Is this statement a `from __future__ import ...` statement
(`node.module == '__future__' and node.level == 0`)? -/
def isFutureImport : PyStmt → Bool
  | .importFrom _ m lvl _ => m = some "__future__" && lvl = 0
  | _ => false

/-- The names bound by an import statement (the `alias.name`s). -/
def stmtNames : PyStmt → List String
  | .import_ _ ns => ns
  | .importFrom _ _ _ ns => ns
  | _ => []

/-- `RemoveUnsupportedFuturesFixer.__call__` over the module body: walk the
leading run of future imports — stopping at the first statement that is not a
plain `from __future__ import` — filter each statement's names to the
supported set, leave an unchanged statement alone, delete a statement whose
filtered list is empty, and rewrite the rest; everything after the break point
is untouched. -/
def cleanupBody (supported : List String) : List PyStmt → List PyStmt
  | [] => []
  | s :: rest =>
    match s with
    | .importFrom ln m lvl names =>
      if m = some "__future__" ∧ lvl = 0 then
        let newNames := names.filter (fun n => n ∈ supported)
        if newNames = names then
          .importFrom ln m lvl names :: cleanupBody supported rest
        else if newNames = [] then
          cleanupBody supported rest
        else
          .importFrom ln m lvl newNames :: cleanupBody supported rest
      else
        .importFrom ln m lvl names :: rest
    | s => s :: rest

/-- The names in the leading run of future-import statements of a module
body. -/
def leadingFutureNames : List PyStmt → List String
  | [] => []
  | s :: rest =>
    if isFutureImport s then stmtNames s ++ leadingFutureNames rest else []

/-- The per-statement rewrite the cleanup fixer performs inside the leading
run of future imports: an unchanged name list leaves the statement untouched,
an emptied name list deletes the statement, and otherwise the statement's
name list is replaced by the filtered list. -/
def futureFilter (supported : List String) : PyStmt → Option PyStmt
  | .importFrom ln m lvl names =>
    let newNames := names.filter (fun n => n ∈ supported)
    if newNames = names then some (.importFrom ln m lvl names)
    else if newNames = [] then none
    else some (.importFrom ln m lvl newNames)
  | s => some s

/-- Modelled from the spec: pipeline reassembly (§4.4 step 7) prepends one
future-import statement per required feature to the rewritten body, so the
future-feature names in the leading run of the final output are the
registered names followed by whatever the cleanup fixer left of the source's
own leading run. -/
def pipelineOutputFutureNames (target_version : String) (body : List PyStmt) : List String :=
  registeredFutureImports target_version ++
    leadingFutureNames (cleanupBody (supportedFutures target_version) body)

/-! ## Build-config evaluation (`packaging.eval_build_config`) -/

/-- Modelled from the spec: `transpile.DEFAULT_TARGET_VERSION` lives in
`transpile.py`, which is not among the visible sources; the spec fixes the
pipeline's default target version constant at "2.7". -/
def DEFAULT_TARGET_VERSION : String := "2.7"

/-- Python whitespace, as `str.split()` and `str.strip()` understand it. -/
def isPyWs (c : Char) : Bool :=
  c = ' ' || c = '\t' || c = '\n' || c = '\x0d' || c = '\x0b' || c = '\x0c'

/-- `str.split()` with no argument: split on runs of whitespace, discarding
empty pieces.  The accumulator holds the current word reversed. -/
def pySplitWsAux : List Char → List Char → List String
  | [], acc => if acc = [] then [] else [⟨acc.reverse⟩]
  | c :: rest, acc =>
    if isPyWs c then
      if acc = [] then pySplitWsAux rest []
      else (⟨acc.reverse⟩ : String) :: pySplitWsAux rest []
    else pySplitWsAux rest (c :: acc)

/-- Python `s.split()`. -/
def pySplitWs (s : String) : List String := pySplitWsAux s.data []

/-- Python `s.strip()`: drop leading and trailing whitespace. -/
def pyStrip (s : String) : String :=
  ⟨((s.data.dropWhile isPyWs).reverse.dropWhile isPyWs).reverse⟩

/-- Is the character one of the version-specifier delimiters of the regex
`[\^\~<>=;]` in `eval_build_config`? -/
def isSpecifierChar (c : Char) : Bool :=
  c = '^' || c = '~' || c = '<' || c = '>' || c = '=' || c = ';'

/-- `re.split(r"[\^\~<>=;]", req)[0]`: the part of the string before the
first specifier character (the whole string when none occurs). -/
def takeUntilSpecifier (s : String) : String :=
  ⟨s.data.takeWhile (fun c => !isSpecifierChar c)⟩

/-- The `install_requires` keyword argument of `eval_build_config`: absent,
a whitespace-delimited string, or a list of strings. -/
inductive InstallRequiresArg where
  | absent
  | str (s : String)
  | list (l : List String)
deriving DecidableEq

/-- `packaging.eval_build_config`, with the keyword arguments it reads
(`target_version`, `install_requires`, `cache_enabled`, `default_mode`) made
explicit; `none`/`.absent` means the keyword was not passed.  `backports` is
not set by this function and keeps the record default of `None`. -/
def eval_build_config (target_version : Option String)
    (install_requires : InstallRequiresArg)
    (cache_enabled : Option Bool) (default_mode : Option String) : BuildConfig :=
  let tv := target_version.getD DEFAULT_TARGET_VERSION
  let ce := cache_enabled.getD true
  let dm := default_mode.getD "enabled"
  let ir₀ : Option (Finset String) :=
    match install_requires with
    | .absent => none
    | .str s => some (pySplitWs s).toFinset
    | .list l => some l.toFinset
  let ir : Option (Finset String) :=
    match ir₀ with
    | none => none
    | some reqs =>
      if reqs = ∅ then some reqs
      else some (reqs.image (fun req => takeUntilSpecifier (pyStrip req)))
  { target_version := tv
    cache_enabled := ce
    default_mode := dm
    fixers := ""
    checkers := ""
    install_requires := ir
    backports := none }

/-! ## Cached per-file transpilation (`packaging.transpile_path`)

`transpile.transpile_module_data`, `hashlib.sha1` and `tempfile.gettempdir()`
are outside the visible sources, so `transpile_path` is parameterised over
them; file contents are byte lists and the file system is an association list
from path to contents. -/

/-- `common.CheckError` as `transpile_path` manipulates it: the `args` tuple
(first message plus remaining payload) and the line number (negative when
unknown). -/
structure CheckErrorArgs where
  msg : String
  rest : List String
  lineno : Int
deriving DecidableEq

/-- Errors escaping the transpilation of one file: a structured check
failure, or any other exception — which `transpile_path` does not catch. -/
inductive PipelineError where
  | check (e : CheckErrorArgs)
  | fatal (s : String)
deriving DecidableEq

/-- The on-disk file system, as a path-to-bytes association list; the most
recent write for a path shadows older entries. -/
def FileSys := List (String × List Nat)

/-- Does a path exist (`cache_path.exists()`)? -/
def fsExists (fs : FileSys) (p : String) : Bool :=
  (List.find? (fun e => e.1 = p) fs).isSome

/-- `open(path, "wb").write(data)`: a whole-file replace. -/
def fsWrite (fs : FileSys) (p : String) (data : List Nat) : FileSys :=
  (p, data) :: fs

/-- `packaging.CACHE_DIR`: the system temp dir joined with
`.lib3to6_cache`. -/
def cacheDirOf (tmpdir : String) : String := tmpdir ++ "/.lib3to6_cache"

/-- `packaging.transpile_path`: hash the configuration's textual form
(`str(cfg).encode("utf-8")`, abstracted as `cfgStrBytes`) concatenated with
the file bytes; derive the cache path; recompute when caching is disabled or
the entry is missing, annotating a caught `CheckError` with the file path and
line before re-raising, and writing the fresh result to the cache; otherwise
return the cached path untouched. -/
def transpile_path
    (sha1hex : List Nat → String)
    (cfgStrBytes : BuildConfig → List Nat)
    (transpile_module_data : BuildConfig → List Nat → Except PipelineError (List Nat))
    (tmpdir : String)
    (cfg : BuildConfig) (filepath : String) (fileBytes : List Nat)
    (fs : FileSys) : Except PipelineError (String × FileSys) :=
  if !cfg.cache_enabled
      || !fsExists fs (cacheDirOf tmpdir ++ "/" ++ sha1hex (cfgStrBytes cfg ++ fileBytes) ++ ".py") then
    match transpile_module_data cfg fileBytes with
    | .error (.check e) =>
      .error (.check
        ⟨(if e.lineno ≥ 0 then filepath ++ "@" ++ toString e.lineno else filepath)
            ++ " - " ++ e.msg,
         e.rest, e.lineno⟩)
    | .error (.fatal s) => .error (.fatal s)
    | .ok fixed =>
      .ok (cacheDirOf tmpdir ++ "/" ++ sha1hex (cfgStrBytes cfg ++ fileBytes) ++ ".py",
        fsWrite fs (cacheDirOf tmpdir ++ "/" ++ sha1hex (cfgStrBytes cfg ++ fileBytes) ++ ".py") fixed)
  else
    .ok (cacheDirOf tmpdir ++ "/" ++ sha1hex (cfgStrBytes cfg ++ fileBytes) ++ ".py", fs)

/-! ## The command-line driver (`__main__.py`) -/

/-- The configuration `main` builds: it calls `eval_build_config()` with no
arguments, ignoring both the `--target-version` and `--config` options it
received. -/
def mainBuildConfig (target_version : String) (config : String) : BuildConfig :=
  eval_build_config none .absent none none

/-- The corrected source `main` computes for one input file:
`transpile.transpile_module(cfg, source_text)` with the configuration built
by `mainBuildConfig`; the pipeline itself (`transpile.py`) is outside the
visible sources and abstracted as `transpile_module`. -/
def mainOutput (transpile_module : BuildConfig → String → String)
    (target_version : String) (config : String) (source_text : String) : String :=
  transpile_module (mainBuildConfig target_version config) source_text

/-! ## Auxiliary predicates used in the statements -/

/-- Did the checker raise a structured check failure? -/
def isCheckFailure : Except CheckFailure (List CheckWarning) → Bool
  | .error _ => true
  | .ok _ => false

/-- The install-requires normalization as the specification words it: "the set
of bare dependency names obtained by splitting each entry on the first
occurrence of any of the characters `^ ~ < > = ;` and keeping the part before
it" — with no whitespace stripping.  Stated for comparison against
`eval_build_config`. -/
def claimInstallRequires (entries : List String) : Finset String :=
  (entries.map takeUntilSpecifier).toFinset

end Lib3to6

namespace Lib3to6

/-! # Helper lemmas about the checker -/

/-- A failure produced while checking one module name names that module. -/
theorem checkModName_err_mname (cfg : BuildConfig) (fp : String) (ln : Int)
    (n : String) (e : CheckFailure)
    (h : checkModName cfg fp ln n = .err e) : e.mname = n := by
  unfold checkModName at h
  split at h
  · simp at h
  · split at h
    · simp at h
    · split at h
      · simp at h
      · split at h
        · simp at h
        · cases h; rfl

/-- A failure produced while checking the names of one import statement names
one of the imported modules. -/
theorem checkNames_err_mem (cfg : BuildConfig) (fp : String) (ln : Int) :
    ∀ (ns : List String) (e : CheckFailure),
      checkNames cfg fp ln ns = .error e → e.mname ∈ ns := by
  intro ns
  induction ns with
  | nil => intro e h; simp [checkNames] at h
  | cons n rest ih =>
    intro e h
    unfold checkNames at h
    cases hm : checkModName cfg fp ln n with
    | pass =>
      simp only [hm] at h
      exact List.mem_cons_of_mem _ (ih e h)
    | warn w =>
      simp only [hm] at h
      cases hr : checkNames cfg fp ln rest with
      | ok ws => simp only [hr] at h; simp at h
      | error e₂ =>
        simp only [hr] at h
        cases h
        exact List.mem_cons_of_mem _ (ih _ hr)
    | err e₂ =>
      simp only [hm] at h
      cases h
      have hn := checkModName_err_mname cfg fp ln n _ hm
      rw [hn]
      exact List.mem_cons_self n rest

/-- A failure of the whole checker names a module imported by a direct child
of the module node. -/
theorem checkBody_err_mem (cfg : BuildConfig) (fp : String) :
    ∀ (body : List PyStmt) (e : CheckFailure),
      checkBody cfg fp body = .error e → e.mname ∈ topLevelModNames body := by
  intro body
  induction body with
  | nil => intro e h; simp [checkBody] at h
  | cons s rest ih =>
    intro e h
    unfold checkBody at h
    cases hsm : stmtModNames s with
    | none =>
      simp only [hsm] at h
      have := ih e h
      simp only [topLevelModNames, hsm, List.nil_append]
      exact this
    | some p =>
      obtain ⟨ln, ns⟩ := p
      simp only [hsm] at h
      have hmem : e.mname ∈ ns ∨ e.mname ∈ topLevelModNames rest := by
        cases hn : checkNames cfg fp ln ns with
        | error e₂ =>
          simp only [hn] at h
          cases h
          exact Or.inl (checkNames_err_mem cfg fp ln ns _ hn)
        | ok ws =>
          simp only [hn] at h
          cases hb : checkBody cfg fp rest with
          | error e₂ =>
            simp only [hb] at h
            cases h
            exact Or.inr (ih _ hb)
          | ok ws' => simp only [hb] at h; simp at h
      simp only [topLevelModNames, hsm, List.mem_append]
      exact hmem

/-- The checker's verdict reads only the direct children of the module node:
erasing every nested body leaves it unchanged. -/
theorem checkBody_stripNested (cfg : BuildConfig) (fp : String) :
    ∀ body : List PyStmt,
      checkBody cfg fp body = checkBody cfg fp (body.map stripNested) := by
  intro body
  induction body with
  | nil => rfl
  | cons s rest ih =>
    cases s <;> simp only [List.map_cons, checkBody, stmtModNames, stripNested] <;> rw [← ih]

/-! # C1 — how the checker compares target_version with available_since -/

/-- C1, counterexample.  The claim reads the checker's version test as a
comparison of two dot-separated integers.  At target version "3.10" and table
module "asyncio" (available since "3.4"), the integer reading says the module
is available, yet the checker — which compares the raw strings, and
lexicographically "3.10" < "3.4" — raises a structured check failure even
under a strict configuration with an empty whitelist. -/
theorem c1_string_compare_counterexample :
    intVerGe "3.10" "3.4" = true ∧
    checkBody ⟨"3.10", true, "enabled", "", "", none, some ∅⟩ "mod.py"
        [.import_ 1 ["asyncio"]]
      = .error ⟨"asyncio", mkErrMsg "asyncio" ⟨"3.4", none, none⟩, 1⟩ :=
  ⟨by decide, by rfl⟩

/-- C1, amended: for every target version string and every module in the
static compatibility table, under a configuration with an explicitly empty
backports whitelist the checker passes without error or warning if and only
if `target_version >= available_since` where the two version strings are
compared as raw Python strings (lexicographically by code point), not as
dot-separated integer pairs. -/
theorem c1_available_iff_string_ge (cfg : BuildConfig) (fp mname : String)
    (ln : Int) (vnfo : ModuleVersionInfo)
    (hl : MAYBE_UNUSABLE_MODULES.lookup mname = some vnfo)
    (hb : cfg.backports = some ∅) :
    checkBody cfg fp [.import_ ln [mname]] = .ok []
      ↔ pyStrGe cfg.target_version vnfo.available_since = true := by
  by_cases hge : pyStrGe cfg.target_version vnfo.available_since = true
  · simp [checkBody, checkNames, checkModName, stmtModNames, hl, hge]
  · simp [checkBody, checkNames, checkModName, stmtModNames, hl, hge, hb]

/-- C1, witness for the amended theorem at target "3.4" and module
"asyncio". -/
theorem c1_available_iff_string_ge_witness :
    MAYBE_UNUSABLE_MODULES.lookup "asyncio" = some ⟨"3.4", none, none⟩ ∧
    (checkBody ⟨"3.4", true, "enabled", "", "", none, some ∅⟩ "mod.py"
        [.import_ 2 ["asyncio"]] = .ok []
      ↔ pyStrGe "3.4" "3.4" = true) :=
  ⟨by decide,
   c1_available_iff_string_ge ⟨"3.4", true, "enabled", "", "", none, some ∅⟩
     "mod.py" "asyncio" 2 ⟨"3.4", none, none⟩ (by decide) rfl⟩

/-! # C2 — top-level `import asyncio` below target "3.4" -/

/-- Checking the name "asyncio" below target "3.4" fails whenever the
configured whitelist (if any) does not contain "asyncio": the whitelist test
is the only escape, since asyncio has no backport module to trigger the
non-strict warning. -/
theorem checkModName_asyncio_err (cfg : BuildConfig) (fp : String) (ln : Int)
    (h1 : pyStrLt cfg.target_version "3.4" = true)
    (h2 : ∀ bs, cfg.backports = some bs → "asyncio" ∉ bs) :
    checkModName cfg fp ln "asyncio"
      = .err ⟨"asyncio", mkErrMsg "asyncio" ⟨"3.4", none, none⟩, ln⟩ := by
  have hge : pyStrGe cfg.target_version "3.4" = false := by
    unfold pyStrGe
    rw [h1]
    rfl
  have hmem : "asyncio" ∉ cfg.backports.getD ∅ := by
    cases hb : cfg.backports with
    | none => simp
    | some bs => simpa using h2 bs hb
  have hl : MAYBE_UNUSABLE_MODULES.lookup "asyncio" = some ⟨"3.4", none, none⟩ := by
    decide
  simp [checkModName, hl, hge, hmem]

/-- C2, counterexample.  The claim covers configurations whose backports
whitelist contains "asyncio", but the checker tests the whitelist before
noticing that no backport exists: with target "2.7" (below "3.4") and
whitelist {"asyncio"}, a module consisting of a top-level `import asyncio`
passes without any error. -/
theorem c2_whitelisted_asyncio_counterexample :
    pyStrLt "2.7" "3.4" = true ∧
    checkBody ⟨"2.7", true, "enabled", "", "", none, some {"asyncio"}⟩ "mod.py"
        [.import_ 1 ["asyncio"]]
      = .ok [] :=
  ⟨by decide, by rfl⟩

/-- C2, amended: for every configuration whose target_version is below "3.4"
(in the code's raw-string ordering) and whose backports whitelist, when one
is configured, does not contain "asyncio", running the unusable-import
checker on a module with a top-level `import asyncio` statement raises a
structured check failure. -/
theorem c2_asyncio_import_fails (cfg : BuildConfig) (fp : String) (ln : Int)
    (body : List PyStmt)
    (h1 : pyStrLt cfg.target_version "3.4" = true)
    (h2 : ∀ bs, cfg.backports = some bs → "asyncio" ∉ bs)
    (h3 : PyStmt.import_ ln ["asyncio"] ∈ body) :
    isCheckFailure (checkBody cfg fp body) = true := by
  induction body with
  | nil => simp at h3
  | cons s rest ih =>
    rcases List.mem_cons.mp h3 with hs | hs
    · subst hs
      have herr := checkModName_asyncio_err cfg fp ln h1 h2
      simp [checkBody, stmtModNames, checkNames, herr, isCheckFailure]
    · have ihr := ih hs
      unfold checkBody
      cases hsm : stmtModNames s with
      | none => simpa [hsm] using ihr
      | some p =>
        obtain ⟨ln₂, ns⟩ := p
        cases hn : checkNames cfg fp ln₂ ns with
        | error e => simp [hsm, hn, isCheckFailure]
        | ok ws =>
          cases hb : checkBody cfg fp rest with
          | error e => simp [hsm, hn, hb, isCheckFailure]
          | ok ws' =>
            rw [hb] at ihr
            simp [isCheckFailure] at ihr

/-- C2, witness for the amended theorem: a non-strict configuration at
target "2.7" with the asyncio import sitting after another statement. -/
theorem c2_asyncio_import_fails_witness :
    pyStrLt "2.7" "3.4" = true ∧
    isCheckFailure (checkBody ⟨"2.7", true, "enabled", "", "", none, none⟩ "m.py"
        [.other, .import_ 3 ["asyncio"]]) = true :=
  ⟨by decide,
   c2_asyncio_import_fails ⟨"2.7", true, "enabled", "", "", none, none⟩ "m.py" 3
     [.other, .import_ 3 ["asyncio"]] (by decide)
     (by intro bs hbs; cases hbs)
     (by simp)⟩

/-! # C4 — top-level `import lzma` below target "3.3" -/

/-- C4: for a module with a top-level `import lzma` statement and a
target_version below "3.3": (a) whenever the configuration's backports
whitelist contains "lzma" the checker passes silently — no error and no
warning; (b) whenever no backports whitelist is configured at all
(non-strict mode) the checker passes with exactly one logged warning and no
error. -/
theorem c4_lzma_whitelist_or_warn :
    (∀ (cfg : BuildConfig) (fp : String) (ln : Int) (bs : Finset String),
      pyStrLt cfg.target_version "3.3" = true →
      cfg.backports = some bs → "lzma" ∈ bs →
      checkBody cfg fp [.import_ ln ["lzma"]] = .ok []) ∧
    (∀ (cfg : BuildConfig) (fp : String) (ln : Int),
      pyStrLt cfg.target_version "3.3" = true →
      cfg.backports = none →
      checkBody cfg fp [.import_ ln ["lzma"]]
        = .ok [⟨fp, ln, "lzma", cfg.target_version⟩]) := by
  have hl : MAYBE_UNUSABLE_MODULES.lookup "lzma"
      = some ⟨"3.3", some "lzma", some "backports.lzma"⟩ := by decide
  constructor
  · intro cfg fp ln bs h1 hb hmem
    have hge : pyStrGe cfg.target_version "3.3" = false := by
      unfold pyStrGe
      rw [h1]
      rfl
    simp [checkBody, stmtModNames, checkNames, checkModName, hl, hge, hb, hmem]
  · intro cfg fp ln h1 hb
    have hge : pyStrGe cfg.target_version "3.3" = false := by
      unfold pyStrGe
      rw [h1]
      rfl
    simp [checkBody, stmtModNames, checkNames, checkModName, hl, hge, hb]

/-- C4, witness: both halves at target "2.7" — whitelisted lzma passes with
no warnings; unconfigured backports produce exactly one warning and no
error. -/
theorem c4_lzma_whitelist_or_warn_witness :
    checkBody ⟨"2.7", true, "enabled", "", "", none, some {"lzma"}⟩ "a.py"
        [.import_ 4 ["lzma"]] = .ok [] ∧
    checkBody ⟨"2.7", true, "enabled", "", "", none, none⟩ "a.py"
        [.import_ 4 ["lzma"]] = .ok [⟨"a.py", 4, "lzma", "2.7"⟩] :=
  ⟨c4_lzma_whitelist_or_warn.1 ⟨"2.7", true, "enabled", "", "", none, some {"lzma"}⟩
     "a.py" 4 {"lzma"} (by decide) rfl (by decide),
   c4_lzma_whitelist_or_warn.2 ⟨"2.7", true, "enabled", "", "", none, none⟩
     "a.py" 4 (by decide) rfl⟩

/-! # C5 — the checker inspects only direct children of the module node -/

/-- C5: the unusable-import checker reads only statements that are direct
children of the module node — replacing every compound statement (and with it
every nested import) by a pass-statement leaves the verdict unchanged — and
any check failure it raises names a module imported by a direct top-level
statement; hence an import of a table module appearing only nested
inside a conditional, try/except, function or other compound statement never
triggers a check failure, for any configuration. -/
theorem c5_top_level_only (cfg : BuildConfig) (fp : String) (body : List PyStmt) :
    checkBody cfg fp body = checkBody cfg fp (body.map stripNested) ∧
    (∀ e, checkBody cfg fp body = .error e → e.mname ∈ topLevelModNames body) :=
  ⟨checkBody_stripNested cfg fp body, fun e h => checkBody_err_mem cfg fp body e h⟩

/-- C5, witness: a module importing asyncio only inside a try/except at
target "2.7" passes, the verdict is unchanged by erasing the nested bodies,
and the one failure the checker does raise on a module with a top-level
`import pathlib` names that top-level module. -/
theorem c5_top_level_only_witness :
    (checkBody ⟨"2.7", true, "enabled", "", "", none, none⟩ "n.py"
        [.try_ [.import_ 2 ["asyncio"]] [[.import_ 4 ["asyncio"]]] [] []]
      = checkBody ⟨"2.7", true, "enabled", "", "", none, none⟩ "n.py"
        ([.try_ [.import_ 2 ["asyncio"]] [[.import_ 4 ["asyncio"]]] [] []].map stripNested)) ∧
    ("pathlib" ∈ topLevelModNames [.import_ 1 ["pathlib"]]) :=
  ⟨(c5_top_level_only ⟨"2.7", true, "enabled", "", "", none, none⟩ "n.py"
      [.try_ [.import_ 2 ["asyncio"]] [[.import_ 4 ["asyncio"]]] [] []]).1,
   (c5_top_level_only ⟨"2.7", true, "enabled", "", "", none, none⟩ "n.py"
      [.import_ 1 ["pathlib"]]).2
     ⟨"pathlib", mkErrMsg "pathlib" ⟨"3.4", some "pathlib2", some "pathlib2"⟩, 1⟩ (by rfl)⟩

/-! # C3 — future-import fixers followed by the cleanup fixer -/

/-- Unfolding `cleanupBody` on a future-import head. -/
theorem cleanupBody_cons_future (supported : List String) (ln : Int)
    (names : List String) (rest : List PyStmt) :
    cleanupBody supported (.importFrom ln (some "__future__") 0 names :: rest)
      = (if names.filter (fun n => n ∈ supported) = names then
           .importFrom ln (some "__future__") 0 names :: cleanupBody supported rest
         else if names.filter (fun n => n ∈ supported) = [] then
           cleanupBody supported rest
         else
           .importFrom ln (some "__future__") 0 (names.filter (fun n => n ∈ supported))
             :: cleanupBody supported rest) := rfl

/-- `cleanupBody` breaks at the first statement that is not a plain
future import, leaving it and everything after it untouched. -/
theorem cleanupBody_cons_nonfuture (supported : List String) (s : PyStmt)
    (rest : List PyStmt) (h : isFutureImport s = false) :
    cleanupBody supported (s :: rest) = s :: rest := by
  cases s with
  | importFrom ln m lvl names =>
    have hc : ¬(m = some "__future__" ∧ lvl = 0) := by
      intro hcon
      obtain ⟨hm, hv⟩ := hcon
      subst hm hv
      simp [isFutureImport] at h
    simp [cleanupBody, hc]
  | import_ ln names => rfl
  | if_ b o => rfl
  | try_ b hs o f => rfl
  | funcDef b => rfl
  | while_ b => rfl
  | other => rfl

/-- Unfolding `leadingFutureNames` on a future-import head. -/
theorem leadingFutureNames_cons_future (ln : Int) (names : List String)
    (rest : List PyStmt) :
    leadingFutureNames (.importFrom ln (some "__future__") 0 names :: rest)
      = names ++ leadingFutureNames rest := rfl

/-- `leadingFutureNames` stops at a non-future statement. -/
theorem leadingFutureNames_cons_nonfuture (s : PyStmt) (rest : List PyStmt)
    (h : isFutureImport s = false) :
    leadingFutureNames (s :: rest) = [] := by
  simp [leadingFutureNames, h]

/-- Every name in the leading future-import run of a cleaned-up body belongs
to the supported set: the cleanup fixer filtered it in. -/
theorem leadingFutureNames_cleanup_sub (supported : List String) :
    ∀ (body : List PyStmt) (n : String),
      n ∈ leadingFutureNames (cleanupBody supported body) → n ∈ supported := by
  intro body
  induction body with
  | nil => intro n h; simp [cleanupBody, leadingFutureNames] at h
  | cons s rest ih =>
    intro n h
    by_cases hfi : isFutureImport s = true
    · obtain ⟨ln, m, lvl, names, hm, hv, hs⟩ :
          ∃ ln m lvl names, m = some "__future__" ∧ lvl = 0 ∧
            s = PyStmt.importFrom ln m lvl names := by
        cases s with
        | importFrom ln m lvl names =>
          simp only [isFutureImport, Bool.and_eq_true, decide_eq_true_eq] at hfi
          exact ⟨ln, m, lvl, names, hfi.1, hfi.2, rfl⟩
        | import_ ln names => simp [isFutureImport] at hfi
        | if_ b o => simp [isFutureImport] at hfi
        | try_ b hs o f => simp [isFutureImport] at hfi
        | funcDef b => simp [isFutureImport] at hfi
        | while_ b => simp [isFutureImport] at hfi
        | other => simp [isFutureImport] at hfi
      subst hm hv hs
      rw [cleanupBody_cons_future] at h
      by_cases h1 : names.filter (fun n => n ∈ supported) = names
      · rw [if_pos h1, leadingFutureNames_cons_future, List.mem_append] at h
        rcases h with h | h
        · exact of_decide_eq_true (List.filter_eq_self.mp h1 n h)
        · exact ih n h
      · by_cases h2 : names.filter (fun n => n ∈ supported) = []
        · rw [if_neg h1, if_pos h2] at h
          exact ih n h
        · rw [if_neg h1, if_neg h2, leadingFutureNames_cons_future, List.mem_append] at h
          rcases h with h | h
          · exact of_decide_eq_true (List.mem_filter.mp h).2
          · exact ih n h
    · rw [cleanupBody_cons_nonfuture supported s rest (Bool.not_eq_true _ ▸ hfi),
        leadingFutureNames_cons_nonfuture s rest (Bool.not_eq_true _ ▸ hfi)] at h
      simp at h

/-- The cleanup fixer rewrites exactly the leading run of future imports —
filtering each statement's names and dropping emptied statements — and leaves
everything from the first non-future statement on untouched. -/
theorem cleanupBody_append (supported : List String) :
    ∀ (leading rest : List PyStmt),
      (∀ s ∈ leading, isFutureImport s = true) →
      (∀ s r', rest = s :: r' → isFutureImport s = false) →
      cleanupBody supported (leading ++ rest)
        = leading.filterMap (futureFilter supported) ++ rest := by
  intro leading
  induction leading with
  | nil =>
    intro rest _ hr
    simp only [List.nil_append, List.filterMap_nil]
    cases rest with
    | nil => rfl
    | cons s r' => exact cleanupBody_cons_nonfuture supported s r' (hr s r' rfl)
  | cons l ls ih =>
    intro rest hl hr
    have hfl := hl l (List.mem_cons_self _ _)
    have ihr := ih rest (fun s hs => hl s (List.mem_cons_of_mem _ hs)) hr
    obtain ⟨ln, m, lvl, names, hm, hv, hs⟩ :
        ∃ ln m lvl names, m = some "__future__" ∧ lvl = 0 ∧
          l = PyStmt.importFrom ln m lvl names := by
      cases l with
      | importFrom ln m lvl names =>
        simp only [isFutureImport, Bool.and_eq_true, decide_eq_true_eq] at hfl
        exact ⟨ln, m, lvl, names, hfl.1, hfl.2, rfl⟩
      | import_ ln names => simp [isFutureImport] at hfl
      | if_ b o => simp [isFutureImport] at hfl
      | try_ b hs o f => simp [isFutureImport] at hfl
      | funcDef b => simp [isFutureImport] at hfl
      | while_ b => simp [isFutureImport] at hfl
      | other => simp [isFutureImport] at hfl
    subst hm hv hs
    rw [List.cons_append, cleanupBody_cons_future]
    by_cases h1 : names.filter (fun n => n ∈ supported) = names
    · rw [if_pos h1, ihr, List.filterMap_cons]
      have hf : futureFilter supported (.importFrom ln (some "__future__") 0 names)
          = some (.importFrom ln (some "__future__") 0 names) := by
        simp only [futureFilter]
        rw [if_pos h1]
      rw [hf]
      rfl
    · by_cases h2 : names.filter (fun n => n ∈ supported) = []
      · rw [if_neg h1, if_pos h2, ihr, List.filterMap_cons]
        have hf : futureFilter supported (.importFrom ln (some "__future__") 0 names)
            = none := by
          simp only [futureFilter]
          rw [if_neg h1, if_pos h2]
        rw [hf]
      · rw [if_neg h1, if_neg h2, ihr, List.filterMap_cons]
        have hf : futureFilter supported (.importFrom ln (some "__future__") 0 names)
            = some (.importFrom ln (some "__future__") 0
                (names.filter (fun n => n ∈ supported))) := by
          simp only [futureFilter]
          rw [if_neg h1, if_neg h2]
        rw [hf]
        rfl

/-- C3: after running the full future-import fixer set followed by the
cleanup fixer, the future-feature names in the leading future-import run of
the reassembled output are exactly those whose declaring fixer's version
range (`apply_since ≤ target ≤ apply_until`) contains the target version;
and on the module tree the cleanup fixer rewrites exactly the leading run of
`from __future__ import` statements — an unchanged name list is left
untouched, an emptied name list deletes the statement, and otherwise the
name list is replaced by the filtered list — leaving everything from the
first non-future statement on untouched. -/
theorem c3_future_names_exact (tv : String) (body leading rest : List PyStmt)
    (hb : body = leading ++ rest)
    (hlead : ∀ s ∈ leading, isFutureImport s = true)
    (hrest : ∀ s r', rest = s :: r' → isFutureImport s = false) :
    (pipelineOutputFutureNames tv body).toFinset = (supportedFutures tv).toFinset ∧
    cleanupBody (supportedFutures tv) body
      = leading.filterMap (futureFilter (supportedFutures tv)) ++ rest := by
  subst hb
  refine ⟨?_, cleanupBody_append _ leading rest hlead hrest⟩
  ext n
  simp only [List.mem_toFinset, pipelineOutputFutureNames, List.mem_append]
  constructor
  · rintro (h | h)
    · exact h
    · exact leadingFutureNames_cleanup_sub _ _ n h
  · intro h
    exact Or.inl h

/-- C3, witness at target "2.7": the source's leading future import
mentions `annotations` (unsupported at 2.7) and `division` (supported);
after the fixers and cleanup the surviving names are exactly the four
2.7-compatible features, and the statement is rewritten to the filtered
list, the trailing statement untouched. -/
theorem c3_future_names_exact_witness :
    (pipelineOutputFutureNames "2.7"
        [.importFrom 1 (some "__future__") 0 ["annotations", "division"], .other]).toFinset
      = (supportedFutures "2.7").toFinset ∧
    cleanupBody (supportedFutures "2.7")
        [.importFrom 1 (some "__future__") 0 ["annotations", "division"], .other]
      = [.importFrom 1 (some "__future__") 0 ["division"], .other] := by
  have h := c3_future_names_exact "2.7"
    [.importFrom 1 (some "__future__") 0 ["annotations", "division"], .other]
    [.importFrom 1 (some "__future__") 0 ["annotations", "division"]]
    [.other]
    rfl
    (by
      intro s hs
      simp only [List.mem_singleton] at hs
      subst hs
      rfl)
    (by
      intro s r' hsr
      cases hsr
      rfl)
  refine ⟨h.1, ?_⟩
  rw [h.2]
  rfl

/-! # C7 — the cache path and the cache-disabled behaviour -/

/-- Whenever `transpile_path` succeeds, the returned path is the cache
directory joined with the hex digest of config text plus file bytes, with
extension ".py". -/
theorem transpile_path_ok_fst (sha1hex : List Nat → String)
    (cfgStrBytes : BuildConfig → List Nat)
    (tmd : BuildConfig → List Nat → Except PipelineError (List Nat))
    (tmpdir : String) (cfg : BuildConfig) (fp : String) (fileBytes : List Nat)
    (fs : FileSys) (r : String × FileSys)
    (h : transpile_path sha1hex cfgStrBytes tmd tmpdir cfg fp fileBytes fs = .ok r) :
    r.1 = cacheDirOf tmpdir ++ "/" ++ sha1hex (cfgStrBytes cfg ++ fileBytes) ++ ".py" := by
  unfold transpile_path at h
  split at h
  · split at h
    · simp at h
    · simp at h
    · cases h; rfl
  · cases h; rfl

/-- C7: the cached transpile operation resolves its cache path as
`<temp dir>/.lib3to6_cache/<sha1-hex(config text + file bytes)>.py`; two
requests with the same configuration and the same file bytes — even for
different file paths and different cache states — resolve to the same path;
and when `cache_enabled` is false the result is recomputed and the cache
entry rewritten unconditionally, whether or not it already exists. -/
theorem c7_cache_path_layout (sha1hex : List Nat → String)
    (cfgStrBytes : BuildConfig → List Nat)
    (tmd : BuildConfig → List Nat → Except PipelineError (List Nat))
    (tmpdir : String) (cfg : BuildConfig) (fp fp₂ : String) (fileBytes : List Nat)
    (fs fs₂ : FileSys) :
    (∀ r, transpile_path sha1hex cfgStrBytes tmd tmpdir cfg fp fileBytes fs = .ok r →
      r.1 = cacheDirOf tmpdir ++ "/" ++ sha1hex (cfgStrBytes cfg ++ fileBytes) ++ ".py") ∧
    (∀ r r₂, transpile_path sha1hex cfgStrBytes tmd tmpdir cfg fp fileBytes fs = .ok r →
      transpile_path sha1hex cfgStrBytes tmd tmpdir cfg fp₂ fileBytes fs₂ = .ok r₂ →
      r.1 = r₂.1) ∧
    (cfg.cache_enabled = false →
      ∀ out, tmd cfg fileBytes = .ok out →
        transpile_path sha1hex cfgStrBytes tmd tmpdir cfg fp fileBytes fs
          = .ok (cacheDirOf tmpdir ++ "/" ++ sha1hex (cfgStrBytes cfg ++ fileBytes) ++ ".py",
              fsWrite fs
                (cacheDirOf tmpdir ++ "/" ++ sha1hex (cfgStrBytes cfg ++ fileBytes) ++ ".py")
                out)) := by
  refine ⟨?_, ?_, ?_⟩
  · intro r h
    exact transpile_path_ok_fst sha1hex cfgStrBytes tmd tmpdir cfg fp fileBytes fs r h
  · intro r r₂ h h₂
    rw [transpile_path_ok_fst sha1hex cfgStrBytes tmd tmpdir cfg fp fileBytes fs r h,
      transpile_path_ok_fst sha1hex cfgStrBytes tmd tmpdir cfg fp₂ fileBytes fs₂ r₂ h₂]
  · intro hce out hout
    simp [transpile_path, hce, hout]

/-- C7, witness: with caching disabled and the cache entry already present,
the entry is recomputed and rewritten with the fresh result. -/
theorem c7_cache_path_layout_witness :
    fsExists [("/tmp/.lib3to6_cache/h.py", [0])] "/tmp/.lib3to6_cache/h.py" = true ∧
    transpile_path (fun _ => "h") (fun _ => []) (fun _ b => .ok b) "/tmp"
        ⟨"2.7", false, "enabled", "", "", none, none⟩ "a.py" [1, 2]
        [("/tmp/.lib3to6_cache/h.py", [0])]
      = .ok ("/tmp/.lib3to6_cache/h.py",
          [("/tmp/.lib3to6_cache/h.py", [1, 2]), ("/tmp/.lib3to6_cache/h.py", [0])]) :=
  ⟨rfl,
   (c7_cache_path_layout (fun _ => "h") (fun _ => []) (fun _ b => .ok b) "/tmp"
       ⟨"2.7", false, "enabled", "", "", none, none⟩ "a.py" "a.py" [1, 2]
       [("/tmp/.lib3to6_cache/h.py", [0])] [("/tmp/.lib3to6_cache/h.py", [0])]).2.2
     rfl [1, 2] rfl⟩

/-! # C8 — annotation of structured check failures -/

/-- C8: when the transpilation of the file raises a structured check failure,
`transpile_path` re-raises it with the first message prefixed by
"filepath@lineno - " when the line is known (`lineno ≥ 0`) and by
"filepath - " alone otherwise, the remaining payload and line number
unchanged; any other error passes through untouched. -/
theorem c8_check_error_annotated (sha1hex : List Nat → String)
    (cfgStrBytes : BuildConfig → List Nat)
    (tmd : BuildConfig → List Nat → Except PipelineError (List Nat))
    (tmpdir : String) (cfg : BuildConfig) (fp : String) (fileBytes : List Nat)
    (fs : FileSys)
    (hmiss : (!cfg.cache_enabled
      || !fsExists fs
          (cacheDirOf tmpdir ++ "/" ++ sha1hex (cfgStrBytes cfg ++ fileBytes) ++ ".py"))
        = true) :
    (∀ e, tmd cfg fileBytes = .error (.check e) →
      transpile_path sha1hex cfgStrBytes tmd tmpdir cfg fp fileBytes fs
        = .error (.check
            ⟨(if e.lineno ≥ 0 then fp ++ "@" ++ toString e.lineno else fp)
                ++ " - " ++ e.msg,
             e.rest, e.lineno⟩)) ∧
    (∀ s, tmd cfg fileBytes = .error (.fatal s) →
      transpile_path sha1hex cfgStrBytes tmd tmpdir cfg fp fileBytes fs
        = .error (.fatal s)) := by
  constructor
  · intro e he
    simp [transpile_path, hmiss, he]
  · intro s hs
    simp [transpile_path, hmiss, hs]

/-- C8, witness: a check failure with known line 3 is re-raised with the
message prefixed by "b.py@3 - ", payload and line unchanged; a non-check
error passes through unchanged. -/
theorem c8_check_error_annotated_witness :
    transpile_path (fun _ => "h") (fun _ => []) (fun _ _ => .error (.check ⟨"boom", ["extra"], 3⟩))
        "/t" ⟨"2.7", true, "enabled", "", "", none, none⟩ "b.py" [5] []
      = .error (.check ⟨"b.py@3 - boom", ["extra"], 3⟩) ∧
    transpile_path (fun _ => "h") (fun _ => []) (fun _ _ => .error (.fatal "syntax"))
        "/t" ⟨"2.7", true, "enabled", "", "", none, none⟩ "b.py" [5] []
      = .error (.fatal "syntax") :=
  ⟨(c8_check_error_annotated (fun _ => "h") (fun _ => [])
      (fun _ _ => .error (.check ⟨"boom", ["extra"], 3⟩)) "/t"
      ⟨"2.7", true, "enabled", "", "", none, none⟩ "b.py" [5] [] rfl).1
     ⟨"boom", ["extra"], 3⟩ rfl,
   (c8_check_error_annotated (fun _ => "h") (fun _ => [])
      (fun _ _ => .error (.fatal "syntax")) "/t"
      ⟨"2.7", true, "enabled", "", "", none, none⟩ "b.py" [5] [] rfl).2
     "syntax" rfl⟩

/-! # C9 — configuration evaluation -/

/-- Normalizing a list-derived requirement set: testing the set for emptiness
before mapping the name-stripping function over it is the same as mapping it
over the list first. -/
theorem normalizeIR_toFinset (l : List String) (f : String → String) :
    (if l.toFinset = ∅ then some l.toFinset else some (l.toFinset.image f))
      = some ((l.map f).toFinset) := by
  by_cases h : l.toFinset = ∅
  · rw [if_pos h]
    rw [List.toFinset_eq_empty_iff] at h
    subst h
    rfl
  · rw [if_neg h]
    congr 1
    ext b
    simp [List.mem_toFinset, Finset.mem_image, List.mem_map]

/-- C9, counterexample.  For the list entry "foo " the code strips the entry
before splitting and stores "foo", while the claim's normalization — split on
the first of `^ ~ < > = ;` and keep the prefix, with no stripping — keeps the
trailing space. -/
theorem c9_strip_counterexample :
    (eval_build_config none (.list ["foo "]) none none).install_requires
      = some {"foo"} ∧
    claimInstallRequires ["foo "] = {"foo "} ∧
    ({"foo"} : Finset String) ≠ {"foo "} := by
  refine ⟨?_, ?_, ?_⟩ <;> decide

/-- C9, amended: `eval_build_config` defaults target_version to the pipeline
default "2.7", cache_enabled to true and default_mode to "enabled"; a
whitespace-delimited string or a list of strings passed as install-requires
is normalized to the set of names obtained by stripping each entry of
surrounding whitespace and then keeping the part before the first occurrence
of any of `^ ~ < > = ;`. -/
theorem c9_eval_build_config (tv : Option String) (ce : Option Bool)
    (dm : Option String) :
    (∀ ir, (eval_build_config none ir none none).target_version = "2.7"
      ∧ (eval_build_config none ir none none).cache_enabled = true
      ∧ (eval_build_config none ir none none).default_mode = "enabled") ∧
    (∀ s, (eval_build_config tv (.str s) ce dm).install_requires
      = some ((pySplitWs s).map (fun req => takeUntilSpecifier (pyStrip req))).toFinset) ∧
    (∀ l, (eval_build_config tv (.list l) ce dm).install_requires
      = some (l.map (fun req => takeUntilSpecifier (pyStrip req))).toFinset) := by
  refine ⟨fun ir => ⟨rfl, rfl, rfl⟩, ?_, ?_⟩
  · intro s
    show (if (pySplitWs s).toFinset = ∅ then some (pySplitWs s).toFinset
          else some ((pySplitWs s).toFinset.image
            (fun req => takeUntilSpecifier (pyStrip req))))
        = _
    exact normalizeIR_toFinset _ _
  · intro l
    show (if l.toFinset = ∅ then some l.toFinset
          else some (l.toFinset.image (fun req => takeUntilSpecifier (pyStrip req))))
        = _
    exact normalizeIR_toFinset _ _

/-- C9, witness for the amended theorem: a delimited string with version
specifiers and a list entry with surrounding whitespace. -/
theorem c9_eval_build_config_witness :
    (eval_build_config none .absent none none).target_version = "2.7" ∧
    (eval_build_config none (.str "click>=7.0 pathlib2~=2.3; extra") none none).install_requires
      = some ((pySplitWs "click>=7.0 pathlib2~=2.3; extra").map
          (fun req => takeUntilSpecifier (pyStrip req))).toFinset ∧
    (eval_build_config none (.list [" six >= 1.0"]) none none).install_requires
      = some ([" six >= 1.0"].map (fun req => takeUntilSpecifier (pyStrip req))).toFinset :=
  ⟨(c9_eval_build_config none none none).1 .absent |>.1,
   (c9_eval_build_config none none none).2.1 "click>=7.0 pathlib2~=2.3; extra",
   (c9_eval_build_config none none none).2.2 [" six >= 1.0"]⟩

/-! # C10 — the CLI driver ignores --target-version and --config -/

/-- C10: the command-line driver builds its configuration by calling the
configuration-evaluation operation with no arguments, so for any two values
of the --target-version option (and of --config) the transpiled output for
the same input text is identical, and the configuration always carries
target version "2.7". -/
theorem c10_cli_ignores_options (transpile_module : BuildConfig → String → String)
    (tv₁ tv₂ config₁ config₂ source_text : String) :
    mainOutput transpile_module tv₁ config₁ source_text
      = mainOutput transpile_module tv₂ config₂ source_text ∧
    (mainBuildConfig tv₁ config₁).target_version = "2.7" :=
  ⟨rfl, rfl⟩

end Lib3to6
